import Mathlib

/-!
Verification of the Sparkify data-lake ETL (src/etl.py) against its
specification.  The transformation core of `process_song_data` and
`process_log_data` is shallowly embedded: Spark dataframes become Lean
lists of structure rows, `select` becomes `List.map` of a projection,
`distinct` becomes `List.dedup`, the equi-join becomes a filtered
product, and the Python `datetime` / `calendar` derivations are
re-implemented as executable Nat arithmetic (proleptic Gregorian
calendar, Howard Hinnant style civil-date algorithms).

Modelling notes, matching the source exactly:
  * `datetime.fromtimestamp` is modelled in UTC.  The source uses the
    execution-host local zone, which the specification itself flags as a
    portability risk; every claim treated below is zone-independent or is
    evaluated under the UTC policy.
  * Python float values (duration, latitude, longitude) are only moved
    around and compared for row equality by the source, never computed
    with, so they are modelled as opaque scalars with decidable equality
    (`Int`).
  * `int(int(x) / 1000)` is modelled as Nat floor division by 1000,
    which agrees with the Python expression on the whole valid
    epoch-millisecond range (far below 2^53, where true division
    followed by truncation coincides with floor division).
  * Spark SQL equality used as a join condition rejects null operands:
    `null == v` is null, which is not true, so the row is dropped.  The
    nullable columns `song` and `title` are `Option String` and the join
    condition `joinEq` returns `false` whenever either side is `none`.
-/

namespace Etl

/-! ## Calendar model of datetime.fromtimestamp, date.weekday, date.isocalendar -/

structure DateTime where
  year : Nat
  month : Nat
  day : Nat
  hour : Nat
  minute : Nat
  second : Nat
deriving DecidableEq, Repr

/-- Days since 1970-01-01 to (year, month, day), proleptic Gregorian. -/
def civilFromDays (z0 : Nat) : Nat × Nat × Nat :=
  let z := z0 + 719468
  let era := z / 146097
  let doe := z % 146097
  let yoe := (doe - doe / 1460 + doe / 36524 - doe / 146096) / 365
  let y0 := yoe + era * 400
  let doy := doe - (365 * yoe + yoe / 4 - yoe / 100)
  let mp := (5 * doy + 2) / 153
  let d := doy - (153 * mp + 2) / 5 + 1
  let m := if mp < 10 then mp + 3 else mp - 9
  (if m ≤ 2 then y0 + 1 else y0, m, d)

/-- (year, month, day) to days since 1970-01-01, for dates from 1970 on. -/
def daysFromCivil (y m d : Nat) : Nat :=
  let y1 := if m ≤ 2 then y - 1 else y
  let era := y1 / 400
  let yoe := y1 % 400
  let mp := if 2 < m then m - 3 else m + 9
  let doy := (153 * mp + 2) / 5 + d - 1
  let doe := yoe * 365 + yoe / 4 - yoe / 100 + doy
  era * 146097 + doe - 719468

/-- Model of `datetime.fromtimestamp` (UTC policy) on whole seconds. -/
def fromTimestamp (s : Nat) : DateTime :=
  let days := s / 86400
  let rem := s % 86400
  let c := civilFromDays days
  ⟨c.1, c.2.1, c.2.2, rem / 3600, rem % 3600 / 60, rem % 60⟩

/-- Model of Python `date.weekday`: Monday = 0 .. Sunday = 6. -/
def pyWeekdayOf (dt : DateTime) : Nat :=
  (daysFromCivil dt.year dt.month dt.day + 3) % 7

/-- Model of `calendar.day_name` (English weekday names, Monday first). -/
def day_name : List String :=
  ["Monday", "Tuesday", "Wednesday", "Thursday", "Friday", "Saturday", "Sunday"]

/-- Ordinal day of the year, 1-based. -/
def dayOfYear (dt : DateTime) : Nat :=
  daysFromCivil dt.year dt.month dt.day - daysFromCivil dt.year 1 1 + 1

def isoP (y : Nat) : Nat := (y + y / 4 - y / 100 + y / 400) % 7

def isoWeeksInYear (y : Nat) : Nat :=
  if isoP y = 4 ∨ isoP (y - 1) = 3 then 53 else 52

/-- Model of `date.isocalendar()[1]`, the ISO-8601 week number. -/
def isoWeekNumber (dt : DateTime) : Nat :=
  let wd := pyWeekdayOf dt + 1
  let w := (dayOfYear dt + 10 - wd) / 7
  if w = 0 then isoWeeksInYear (dt.year - 1)
  else if isoWeeksInYear dt.year < w then 1 else w

/-! ## Raw inputs (section 3 of the spec, as read by spark.read.json) -/

structure SongRecord where
  song_id : String
  title : Option String
  artist_id : String
  artist_name : String
  artist_location : Option String
  artist_latitude : Option Int
  artist_longitude : Option Int
  year : Nat
  duration : Int
deriving DecidableEq, Repr

structure LogEvent where
  ts : Nat
  userId : String
  firstName : String
  lastName : String
  gender : String
  level : String
  sessionId : Nat
  location : String
  userAgent : String
  song : Option String
  page : String
deriving DecidableEq, Repr

/-! ## process_song_data (etl.py lines 37-60) -/

structure SongRow where
  song_id : String
  title : Option String
  artist_id : String
  year : Nat
  duration : Int
deriving DecidableEq, Repr

structure ArtistRow where
  artist_id : String
  name : String
  location : Option String
  latitude : Option Int
  longitude : Option Int
deriving DecidableEq, Repr

def songProj (r : SongRecord) : SongRow :=
  ⟨r.song_id, r.title, r.artist_id, r.year, r.duration⟩

def artistProj (r : SongRecord) : ArtistRow :=
  ⟨r.artist_id, r.artist_name, r.artist_location, r.artist_latitude, r.artist_longitude⟩

/-- etl.py lines 37-42: select of the five song columns followed by distinct. -/
def songs_table (records : List SongRecord) : List SongRow :=
  (records.map songProj).dedup

/-- etl.py lines 49-57: select with renames followed by distinct. -/
def artists_table (records : List SongRecord) : List ArtistRow :=
  (records.map artistProj).dedup

/-! ## process_log_data (etl.py lines 77-123) -/

structure UserRow where
  userId : String
  firstName : String
  lastName : String
  gender : String
  level : String
deriving DecidableEq, Repr

def userProj (e : LogEvent) : UserRow :=
  ⟨e.userId, e.firstName, e.lastName, e.gender, e.level⟩

/-- etl.py line 81: a bare select of five columns.  The source applies no
distinct here, so the table keeps one row per LogEvent. -/
def users_table (events : List LogEvent) : List UserRow :=
  events.map userProj

/-- etl.py line 87: str(int(int(x) / 1000)). -/
def get_timestamp (ts : Nat) : String := Nat.repr (ts / 1000)

/-- etl.py line 91: datetime.fromtimestamp(int(int(x) / 1000)). -/
def get_datetime (ts : Nat) : DateTime := fromTimestamp (ts / 1000)

/-- etl.py line 92: the udf named get_week computes calendar.day_name of
the weekday, that is a weekday NAME, not a week number. -/
def get_week (dt : DateTime) : String := day_name.getD (pyWeekdayOf dt) ""

/-- etl.py line 93: the udf named get_weekday computes isocalendar()[1],
that is the ISO week NUMBER, not a weekday name. -/
def get_weekday (dt : DateTime) : Nat := isoWeekNumber dt

def get_hour (dt : DateTime) : Nat := dt.hour

def get_day (dt : DateTime) : Nat := dt.day

def get_year (dt : DateTime) : Nat := dt.year

def get_month (dt : DateTime) : Nat := dt.month

/-- One row of the time table as produced by etl.py lines 99-108: the
column week receives get_week (a String) and the column weekday receives
get_weekday (a Nat). -/
structure TimeRow where
  start_time : DateTime
  hour : Nat
  day : Nat
  week : String
  month : Nat
  year : Nat
  weekday : Nat
deriving DecidableEq, Repr

def timeRow (ts : Nat) : TimeRow :=
  let dt := get_datetime ts
  ⟨dt, get_hour dt, get_day dt, get_week dt, get_month dt, get_year dt, get_weekday dt⟩

/-- etl.py line 108: one time row per log event, no distinct applied. -/
def time_table (events : List LogEvent) : List TimeRow :=
  events.map (fun e => timeRow e.ts)

/-- Spark SQL equality as join condition: a null operand never matches. -/
def joinEq (t s : Option String) : Bool :=
  match t, s with
  | some a, some b => a == b
  | _, _ => false

/-- One row of the songplays table exactly as written by etl.py line 119:
the eight selected columns.  No songplay_id column is present; line 120
selects monotonically_increasing_id into a separate collected result that
is discarded. -/
structure SongplayRow where
  start_time : DateTime
  userId : String
  level : String
  song_id : String
  artist_id : String
  sessionId : Nat
  location : String
  userAgent : String
deriving DecidableEq, Repr

def mkSongplay (e : LogEvent) (s : SongRow) : SongplayRow :=
  ⟨get_datetime e.ts, e.userId, e.level, s.song_id, s.artist_id,
    e.sessionId, e.location, e.userAgent⟩

/-- The joined rows contributed by one log event: one per song row whose
title equals the event song under Spark null-rejecting equality. -/
def songplaysFor (e : LogEvent) (songs : List SongRow) : List SongplayRow :=
  (songs.filter (fun s => joinEq s.title e.song)).map (mkSongplay e)

/-- etl.py lines 118-119: inner equi-join on song_df.title == df.song
followed by the eight-column select.  No page filter is applied. -/
def songplays_table (events : List LogEvent) (songs : List SongRow) : List SongplayRow :=
  events.flatMap (fun e => songplaysFor e songs)

/-! ## Concrete inputs used by evaluations, counterexamples and witnesses -/

/-- The worked example of spec section 8. -/
def specSongRow : SongRow := ⟨"S1", some "Hello", "A1", 2000, 1805⟩

def specEvent : LogEvent :=
  ⟨1541121934796, "10", "Sara", "Jones", "F", "free", 5, "NY", "X",
    some "Hello", "NextSong"⟩

def c2event : LogEvent :=
  ⟨1541121934796, "7", "Ada", "Smith", "F", "paid", 21, "SF", "UA",
    some "Hello", "NextSong"⟩

def c4e1 : LogEvent :=
  ⟨1541121934796, "7", "Ada", "Smith", "F", "paid", 21, "SF", "UA",
    none, "Home"⟩

def c4e2 : LogEvent :=
  ⟨1541121934796, "8", "Bea", "Stone", "F", "free", 22, "LA", "UA",
    none, "Home"⟩

def c5event : LogEvent :=
  ⟨1541121934796, "10", "Sara", "Jones", "F", "free", 5, "NY", "X",
    some "Hello", "Login"⟩

def c5miss : LogEvent :=
  ⟨1541121934796, "11", "Max", "Reed", "M", "paid", 6, "NY", "X",
    some "No Such Title", "NextSong"⟩

def c9event : LogEvent :=
  ⟨1541121934796, "12", "Lee", "Park", "M", "free", 7, "LA", "X",
    some "Twin", "NextSong"⟩

def c9songA : SongRow := ⟨"S2", some "Twin", "A2", 1999, 2000⟩

def c9songB : SongRow := ⟨"S3", some "Twin", "A3", 2004, 2110⟩

def c10event : LogEvent :=
  ⟨1541121934796, "13", "Kim", "Cho", "F", "paid", 8, "NY", "X",
    none, "Home"⟩

def c10songNullTitle : SongRow := ⟨"S4", none, "A4", 2010, 1500⟩

/-! ## Claims -/

/-- C1: the claim says the week column holds the ISO-8601 week number and
the weekday column holds the English weekday name.  Evaluating the code at
the spec example timestamp shows the two derivations are applied to the
wrong columns: week receives the weekday name and weekday receives the
ISO week number. -/
theorem c1_week_weekday_columns_swapped :
    (timeRow 1541121934796).week = "Friday" ∧
    (timeRow 1541121934796).weekday = 44 ∧
    (timeRow 1541121934796).start_time = ⟨2018, 11, 2, 1, 25, 34⟩ :=
  ⟨rfl, rfl, rfl⟩

/-- C2 counterexample: two identical LogEvents contribute two identical
User rows, because the source applies no distinct to the users select, so
the claimed full-row deduplication fails. -/
theorem c2_duplicate_events_give_two_user_rows :
    users_table [c2event, c2event] = [userProj c2event, userProj c2event] ∧
    ¬ (users_table [c2event, c2event]).Nodup :=
  ⟨rfl, by decide⟩

/-- C2 amended: the users table is the bare projection of the log stream
onto the five columns with no deduplication: each User row occurs exactly
as many times as there are LogEvents projecting onto it. -/
theorem c2_users_table_is_projection_with_multiplicity
    (events : List LogEvent) (u : UserRow) :
    (users_table events).countP (fun v => v == u) =
      events.countP (fun e => userProj e == u) := by
  simp only [users_table, List.countP_map]
  rfl

/-- C3: evaluation of the songplays output at the worked spec example.
The written table consists of exactly the eight selected columns
start_time, userId, level, song_id, artist_id, sessionId, location,
userAgent; no songplay_id column exists in the written rows, because the
monotonically_increasing_id select on line 120 is collected into a
discarded value instead of being attached to the table. -/
theorem c3_songplays_written_without_songplay_id :
    songplays_table [specEvent] [specSongRow] =
      [⟨⟨2018, 11, 2, 1, 25, 34⟩, "10", "free", "S1", "A1", 5, "NY", "X"⟩] :=
  rfl

/-- C4 counterexample: two distinct LogEvents sharing one ts produce two
time rows with equal start_time, so the claimed one-row-per-distinct-ts
property fails: the source applies no distinct to the time select. -/
theorem c4_shared_ts_gives_two_time_rows :
    c4e1.ts = c4e2.ts ∧ c4e1 ≠ c4e2 ∧
    (time_table [c4e1, c4e2]).length = 2 ∧
    ¬ ((time_table [c4e1, c4e2]).map TimeRow.start_time).Nodup :=
  ⟨rfl, by decide, rfl, by decide⟩

/-- C4 amended: the time table holds one row per LogEvent, each derived
from that event ts; events sharing a timestamp each contribute their own
row, with multiplicities preserved. -/
theorem c4_time_table_one_row_per_event (events : List LogEvent) :
    (time_table events).length = events.length ∧
    ∀ t : Nat, (time_table events).countP (fun r => r == timeRow t) =
      events.countP (fun e => timeRow e.ts == timeRow t) := by
  constructor
  · simp [time_table]
  · intro t
    simp only [time_table, List.countP_map]
    rfl

/-- C5: a LogEvent whose song equals the title of exactly one song row
yields exactly one songplay row, whose song_id and artist_id come from
that matching song row, with no page filter (the event page is arbitrary);
a LogEvent matching no title yields no row. -/
theorem c5_unique_title_match_one_row (e : LogEvent) (songs : List SongRow) :
    (songs.countP (fun s => joinEq s.title e.song) = 1 →
      ∃ s, s ∈ songs ∧ joinEq s.title e.song = true ∧
        songplaysFor e songs = [mkSongplay e s]) ∧
    (songs.countP (fun s => joinEq s.title e.song) = 0 →
      songplaysFor e songs = []) := by
  constructor
  · intro h
    rw [List.countP_eq_length_filter] at h
    obtain ⟨s, hs⟩ := List.length_eq_one.mp h
    have hmem : s ∈ songs.filter (fun s => joinEq s.title e.song) := by
      rw [hs]
      exact List.mem_singleton_self s
    refine ⟨s, (List.mem_filter.mp hmem).1, (List.mem_filter.mp hmem).2, ?_⟩
    simp only [songplaysFor, hs, List.map_cons, List.map_nil]
  · intro h
    rw [List.countP_eq_length_filter] at h
    simp only [songplaysFor, List.length_eq_zero.mp h, List.map_nil]

/-- C5 witness: the single-match event of the spec example (with a
non-playback page) produces exactly one row, and a no-match event
produces none. -/
theorem c5_unique_title_match_one_row_witness :
    (songplaysFor c5event [specSongRow]).length = 1 ∧
    songplaysFor c5miss [specSongRow] = [] := by
  constructor
  · obtain ⟨s, _, _, h⟩ :=
      (c5_unique_title_match_one_row c5event [specSongRow]).1 (by decide)
    rw [h]
    rfl
  · exact (c5_unique_title_match_one_row c5miss [specSongRow]).2 (by decide)

/-- C6: the derived timestamp column is the decimal representation of an
integer n that is exactly floor(ts / 1000), and start_time is the
calendar datetime constructed from that same n. -/
theorem c6_timestamp_is_floor_of_ts_over_1000 (ts : Nat) :
    ∃ n, get_timestamp ts = Nat.repr n ∧ 1000 * n ≤ ts ∧ ts < 1000 * (n + 1) ∧
      (timeRow ts).start_time = fromTimestamp n :=
  ⟨ts / 1000, rfl, by omega, by omega, rfl⟩

/-- C7: songs and artists are deduplicated by full-row equality, so
neither output table contains two identical rows. -/
theorem c7_songs_artists_no_duplicate_rows (records : List SongRecord) :
    (songs_table records).Nodup ∧ (artists_table records).Nodup :=
  ⟨List.nodup_dedup _, List.nodup_dedup _⟩

/-- C8: the timestamp derivation is deterministic: applying it twice to
the same ts yields identical hour, day, week, month, year and weekday
fields. -/
theorem c8_time_derivation_deterministic (ts1 ts2 : Nat) (h : ts1 = ts2) :
    (timeRow ts1).hour = (timeRow ts2).hour ∧
    (timeRow ts1).day = (timeRow ts2).day ∧
    (timeRow ts1).week = (timeRow ts2).week ∧
    (timeRow ts1).month = (timeRow ts2).month ∧
    (timeRow ts1).year = (timeRow ts2).year ∧
    (timeRow ts1).weekday = (timeRow ts2).weekday := by
  subst h
  exact ⟨rfl, rfl, rfl, rfl, rfl, rfl⟩

/-- C8 witness at the spec example timestamp. -/
theorem c8_time_derivation_deterministic_witness :
    (1541121934796 : Nat) = 1541121934796 ∧
    (timeRow 1541121934796).hour = (timeRow 1541121934796).hour ∧
    (timeRow 1541121934796).day = (timeRow 1541121934796).day ∧
    (timeRow 1541121934796).week = (timeRow 1541121934796).week ∧
    (timeRow 1541121934796).month = (timeRow 1541121934796).month ∧
    (timeRow 1541121934796).year = (timeRow 1541121934796).year ∧
    (timeRow 1541121934796).weekday = (timeRow 1541121934796).weekday :=
  ⟨rfl, c8_time_derivation_deterministic 1541121934796 1541121934796 rfl⟩

/-- C9: if k song rows (k at least 2) share the title carried by one
LogEvent, the join emits k songplay rows for that event, one per matching
song row. -/
theorem c9_title_collision_emits_k_rows (e : LogEvent) (songs : List SongRow)
    (k : Nat) (_hk : 2 ≤ k)
    (h : songs.countP (fun s => joinEq s.title e.song) = k) :
    (songplaysFor e songs).length = k := by
  rw [List.countP_eq_length_filter] at h
  simpa only [songplaysFor, List.length_map] using h

/-- C9 witness: two song rows titled Twin against one event playing Twin
give two songplay rows. -/
theorem c9_title_collision_emits_k_rows_witness :
    2 ≤ 2 ∧
    ([c9songA, c9songB].countP (fun s => joinEq s.title c9event.song) = 2) ∧
    (songplaysFor c9event [c9songA, c9songB]).length = 2 :=
  ⟨by decide, by decide,
    c9_title_collision_emits_k_rows c9event [c9songA, c9songB] 2
      (by decide) (by decide)⟩

/-- C10: an event with a null song joins nothing: Spark equality rejects
null operands, so even a song row whose title is also null never
matches, and the event contributes zero songplay rows. -/
theorem c10_null_song_emits_no_rows (e : LogEvent) (songs : List SongRow)
    (h : e.song = none) : songplaysFor e songs = [] := by
  have hnil : songs.filter (fun s => joinEq s.title e.song) = [] := by
    rw [List.filter_eq_nil_iff]
    intro s _
    rw [h]
    cases s.title <;> simp [joinEq]
  simp only [songplaysFor, hnil, List.map_nil]

/-- C10 witness: a null-song event against a null-title song row. -/
theorem c10_null_song_emits_no_rows_witness :
    c10event.song = none ∧ songplaysFor c10event [c10songNullTitle] = [] :=
  ⟨rfl, c10_null_song_emits_no_rows c10event [c10songNullTitle] rfl⟩

end Etl
